import Mathlib

/-!
Verification of the foraging-simulation core (src/food.py, src/agent.py,
src/environment.py) against its natural-language specification.

Modelling conventions:
- Python floats are modelled by rationals (ℚ); all arithmetic in the
  modelled code paths is exact decimal arithmetic, clamps (min/max) and
  comparisons, which ℚ reproduces faithfully.
- Python ints are modelled by ℕ or ℤ as appropriate; the counter clamp
  `max(0, c - 1)` on a non-negative counter is ℕ truncated subtraction.
- Mutation is modelled by explicit state passing: a method that mutates
  `self` (and possibly its area) becomes a function returning the new
  states together with the method's return value.
-/

/-- Area record (src/environment.py lines 32-56 and src/area.py): id,
food-regeneration modifier, expansion probability, maximum number of food
sources and the live counter of current sources. Only the fields consulted
by the modelled code are kept; display name and color are render-only. -/
structure AreaSt where
  id : ℕ
  regenModifier : ℚ
  expansionChance : ℚ
  maxFoodSources : ℕ
  currentFoodSources : ℕ
deriving DecidableEq

/-- The Plains area (src/environment.py lines 33-37, max sources from
src/area.py line 10); the live counter starts at 0. -/
def plainsArea : AreaSt := ⟨1, 6/5, 3/1000, 5, 0⟩

/-- Food item (src/food.py lines 8-16): position, energy value, type tag,
expiry time and age in ticks. -/
structure FoodItem where
  x : ℤ
  y : ℤ
  value : ℕ
  ftype : String
  expiryTime : ℕ
  age : ℕ
deriving DecidableEq

/-- Food.update (src/food.py lines 18-21): ages the item by one tick and
returns True exactly when the new age has reached expiry_time. -/
def foodUpdate (f : FoodItem) : Bool × FoodItem :=
  let f' := { f with age := f.age + 1 }
  (decide (f'.expiryTime ≤ f'.age), f')

/-- The four producer classes of src/food.py. -/
inductive SourceKind where
  | grass
  | berry
  | fruitTree
  | cactus
deriving DecidableEq

/-- State of a food source (src/food.py lines 36-42 plus the per-class
fields of lines 73-79, 160-167, 238-244, 307-313). The record carries the
union of the subclass fields; each constructor below fills them with the
corresponding class's values. -/
structure FoodSrc where
  x : ℤ
  y : ℤ
  kind : SourceKind
  areaId : ℕ
  foodLeft : ℚ
  isDestroyed : Bool
  age : ℕ
  lifespan : ℕ
  maxCapacity : ℚ
  productionInterval : ℕ
  tickCount : ℕ
  randomDropChance : ℚ
  regenRate : ℚ
deriving DecidableEq

/-- SimpleGrassPatch.__init__ (src/food.py lines 73-79). -/
def mkGrass (x y : ℤ) (aid : ℕ) : FoodSrc :=
  ⟨x, y, SourceKind.grass, aid, 100, false, 0, 1000, 100, 100, 0, 0, 0⟩

/-- BerryBush.__init__ (src/food.py lines 160-167): random drop chance
0.04, regen rate 0.05, no production interval. -/
def mkBerry (x y : ℤ) (aid : ℕ) : FoodSrc :=
  ⟨x, y, SourceKind.berry, aid, 40, false, 0, 1000, 40, 0, 0, 1/25, 1/20⟩

/-- FertileFruitTree.__init__ (src/food.py lines 238-244). -/
def mkFruitTree (x y : ℤ) (aid : ℕ) : FoodSrc :=
  ⟨x, y, SourceKind.fruitTree, aid, 50, false, 0, 4000, 50, 100, 0, 0, 0⟩

/-- CactusPads.__init__ (src/food.py lines 307-313). -/
def mkCactus (x y : ℤ) (aid : ℕ) : FoodSrc :=
  ⟨x, y, SourceKind.cactus, aid, 30, false, 0, 5000, 30, 80, 0, 0, 0⟩

/-- Dispatch a class constructor by kind, as `type(source)(position, area)`
does in src/environment.py lines 167-168. -/
def mkSource (k : SourceKind) (x y : ℤ) (aid : ℕ) : FoodSrc :=
  match k with
  | SourceKind.grass => mkGrass x y aid
  | SourceKind.berry => mkBerry x y aid
  | SourceKind.fruitTree => mkFruitTree x y aid
  | SourceKind.cactus => mkCactus x y aid

/-- FoodSource.destroy (src/food.py lines 55-59): on the first call sets
the destroyed flag and decrements the owning area's live counter, clamped
at zero; afterwards a no-op. -/
def destroy (s : FoodSrc) (ar : AreaSt) : FoodSrc × AreaSt :=
  if s.isDestroyed then (s, ar)
  else ({ s with isDestroyed := true },
        { ar with currentFoodSources := ar.currentFoodSources - 1 })

/-- FoodSource.increment_age (src/food.py lines 61-65): always increments
age, then destroys the source once age has reached its lifespan. -/
def incrementAge (s : FoodSrc) (ar : AreaSt) : FoodSrc × AreaSt :=
  let s' := { s with age := s.age + 1 }
  if s'.lifespan ≤ s'.age then destroy s' ar else (s', ar)

/-- SimpleGrassPatch.update (src/food.py lines 88-112): age, bail out if
destroyed, regenerate toward capacity at 0.1 times the area modifier, then
drop one Food (value 20, expiry 500) every production_interval ticks while
at least 10 food is left. -/
def grassUpdate (s : FoodSrc) (ar : AreaSt) : Option FoodItem × FoodSrc × AreaSt :=
  let p := incrementAge s ar
  let s1 := p.1
  let ar1 := p.2
  if s1.isDestroyed then (none, s1, ar1)
  else
    let s2 := if s1.foodLeft < s1.maxCapacity then
        { s1 with foodLeft := min s1.maxCapacity (s1.foodLeft + (1/10) * ar1.regenModifier) }
      else s1
    let s3 := { s2 with tickCount := s2.tickCount + 1 }
    if s3.productionInterval ≤ s3.tickCount ∧ 10 ≤ s3.foodLeft then
      (some ⟨s3.x, s3.y, 20, "herbivore", 500, 0⟩,
       { s3 with tickCount := 0, foodLeft := max 0 (s3.foodLeft - 10) }, ar1)
    else (none, s3, ar1)

/-- BerryBush.update (src/food.py lines 176-195): age, bail out if
destroyed, regenerate at regen_rate times the area modifier, then with the
sampled value `randv` (standing for random.random()) below the drop chance
and at least 5 food left, drop one Food (value 10, expiry 1000). -/
def berryUpdate (randv : ℚ) (s : FoodSrc) (ar : AreaSt) : Option FoodItem × FoodSrc × AreaSt :=
  let p := incrementAge s ar
  let s1 := p.1
  let ar1 := p.2
  if s1.isDestroyed then (none, s1, ar1)
  else
    let s2 := if s1.foodLeft < s1.maxCapacity then
        { s1 with foodLeft := min s1.maxCapacity (s1.foodLeft + s1.regenRate * ar1.regenModifier) }
      else s1
    if 5 ≤ s2.foodLeft ∧ randv < s2.randomDropChance then
      (some ⟨s2.x, s2.y, 10, "herbivore", 1000, 0⟩,
       { s2 with foodLeft := max 0 (s2.foodLeft - 5) }, ar1)
    else (none, s2, ar1)

/-- FertileFruitTree.update (src/food.py lines 253-272): as the grass
patch, with regeneration coefficient 0.2, food value 30 and expiry 1200. -/
def fruitTreeUpdate (s : FoodSrc) (ar : AreaSt) : Option FoodItem × FoodSrc × AreaSt :=
  let p := incrementAge s ar
  let s1 := p.1
  let ar1 := p.2
  if s1.isDestroyed then (none, s1, ar1)
  else
    let s2 := if s1.foodLeft < s1.maxCapacity then
        { s1 with foodLeft := min s1.maxCapacity (s1.foodLeft + (1/5) * ar1.regenModifier) }
      else s1
    let s3 := { s2 with tickCount := s2.tickCount + 1 }
    if s3.productionInterval ≤ s3.tickCount ∧ 10 ≤ s3.foodLeft then
      (some ⟨s3.x, s3.y, 30, "herbivore", 1200, 0⟩,
       { s3 with tickCount := 0, foodLeft := max 0 (s3.foodLeft - 10) }, ar1)
    else (none, s3, ar1)

/-- CactusPads.update (src/food.py lines 322-341): as the grass patch,
with production threshold and cost 5, food value 15 and expiry 400. -/
def cactusUpdate (s : FoodSrc) (ar : AreaSt) : Option FoodItem × FoodSrc × AreaSt :=
  let p := incrementAge s ar
  let s1 := p.1
  let ar1 := p.2
  if s1.isDestroyed then (none, s1, ar1)
  else
    let s2 := if s1.foodLeft < s1.maxCapacity then
        { s1 with foodLeft := min s1.maxCapacity (s1.foodLeft + (1/10) * ar1.regenModifier) }
      else s1
    let s3 := { s2 with tickCount := s2.tickCount + 1 }
    if s3.productionInterval ≤ s3.tickCount ∧ 5 ≤ s3.foodLeft then
      (some ⟨s3.x, s3.y, 15, "herbivore", 400, 0⟩,
       { s3 with tickCount := 0, foodLeft := max 0 (s3.foodLeft - 5) }, ar1)
    else (none, s3, ar1)

/-- Dispatch of update by producer kind, as the dynamic call
`source.update()` in src/environment.py line 144. -/
def srcUpdate (randv : ℚ) (s : FoodSrc) (ar : AreaSt) : Option FoodItem × FoodSrc × AreaSt :=
  match s.kind with
  | SourceKind.grass => grassUpdate s ar
  | SourceKind.berry => berryUpdate randv s ar
  | SourceKind.fruitTree => fruitTreeUpdate s ar
  | SourceKind.cactus => cactusUpdate s ar

/-- One whole update() call on a grass patch together with its area,
keeping only the post-state. -/
def grassStep (p : FoodSrc × AreaSt) : FoodSrc × AreaSt :=
  (grassUpdate p.1 p.2).2

/-- Trajectory of the grass patch spawned at (2,2) in the Plains area
(src/environment.py line 108) under repeated update() calls: state after n
calls. -/
def grassSt (n : ℕ) : FoodSrc × AreaSt :=
  grassStep^[n] (mkGrass 2 2 1, plainsArea)

/-- Return value of the nth update() call on that grass patch (none for
n = 0, which is before any call). -/
def grassOut (n : ℕ) : Option FoodItem :=
  if n = 0 then none else (grassUpdate (grassSt (n - 1)).1 (grassSt (n - 1)).2).1

/-- The clamp helper of src/agent.py lines 6-11. -/
def clampQ (v lo hi : ℚ) : ℚ :=
  if v < lo then lo else if hi < v then hi else v

/-- Python float modulo with a positive modulus, used for `% 360.0` in
src/agent.py lines 203 and 219. -/
def qmod (a b : ℚ) : ℚ := a - b * ⌊a / b⌋

/-- Agent state (src/agent.py lines 38-68): position, heading angle in
degrees, vitals and the derived stats consulted by the update path. The
derived stats are kept symbolic (the square-root scaling of body points is
irrational and only their values matter to the dynamics). The fixed weight
matrix and the input override are not part of the modelled state because
the decision outputs are abstracted, see Decision. -/
structure AgentState where
  x : ℚ
  y : ℚ
  angle : ℚ
  hp : ℚ
  energy : ℚ
  age : ℕ
  maxHp : ℚ
  maxEnergy : ℚ
  maxAge : ℕ
  baseSpeed : ℚ
  agility : ℚ
  lastAction : ℕ
  lastTarget : Option (ℚ × ℚ)
deriving DecidableEq

/-- Abstraction of one tick's sensing/thinking outputs (src/agent.py
lines 271-277): the chosen action index, the turn and intensity outputs,
the cosine and sine of the movement heading in radians (cosv, sinv stand
for cos(radians(new_angle)) and sin(radians(new_angle)) of lines 228-230),
the flee bearing in degrees (degrees(atan2(-dy, dx)) of line 246) and the
nearest-food target cached by sense (line 121). Theorems below quantify
over all decisions, which covers every value the network can produce. -/
structure Decision where
  action : ℕ
  turn : ℚ
  intensity : ℚ
  cosv : ℚ
  sinv : ℚ
  fleeAng : ℚ
  senseTarget : Option (ℚ × ℚ)

/-- Agent._apply_bounds (src/agent.py lines 199-219): reflect an
out-of-range coordinate (mirroring a high overflow about bound − 1e-6 and
a low overflow about 0), invert the matching heading term by the 180/360
degree rule, then clamp into range and normalize the angle. -/
def applyBounds (bx bY newX newY newAngle : ℚ) (a : AgentState) : AgentState :=
  if bx ≤ 0 ∨ bY ≤ 0 then
    { a with x := newX, y := newY, angle := qmod newAngle 360 }
  else
    let maxX := max 0 (bx - 1/1000000)
    let maxY := max 0 (bY - 1/1000000)
    let p1 : ℚ × ℚ :=
      if newX < 0 ∨ bx ≤ newX then
        (if newX < 0 then -newX else 2 * maxX - newX, 180 - newAngle)
      else (newX, newAngle)
    let p2 : ℚ × ℚ :=
      if newY < 0 ∨ bY ≤ newY then
        (if newY < 0 then -newY else 2 * maxY - newY, 360 - p1.2)
      else (newY, p1.2)
    { a with x := max 0 (min p1.1 maxX), y := max 0 (min p2.1 maxY),
             angle := qmod p2.2 360 }

/-- Agent._move (src/agent.py lines 221-234), with the trigonometric
factors of the new heading supplied as cosv and sinv. -/
def moveA (bx bY cosv sinv turn intensity : ℚ) (a : AgentState) : AgentState :=
  let newAngle := a.angle + turn * (a.agility * (1/2))
  let inten := clampQ (1/2 + (1/2) * intensity) 0 1
  let sp := a.baseSpeed * (1/5 + (13/10) * inten)
  let a' := applyBounds bx bY (a.x + cosv * sp) (a.y - sinv * sp) newAngle a
  { a' with energy := max 0 (a'.energy - (1/50 + (3/50) * inten)) }

/-- Agent._idle (src/agent.py lines 236-237). -/
def idleA (a : AgentState) : AgentState :=
  { a with energy := min a.maxEnergy (a.energy + 3/100) }

/-- Agent._flee (src/agent.py lines 239-248): with no cached target fall
back to a plain move; otherwise face the opposite bearing from the target
(fleeAng stands for the computed degrees(atan2(-dy, dx))) and move with
turn 0 and intensity at least 0.2. -/
def fleeA (bx bY cosv sinv fleeAng turn intensity : ℚ) (a : AgentState) : AgentState :=
  match a.lastTarget with
  | none => moveA bx bY cosv sinv turn intensity a
  | some _ => moveA bx bY cosv sinv 0 (max (1/5) intensity) { a with angle := qmod fleeAng 360 }

/-- Agent._attack (src/agent.py lines 250-251). -/
def attackA (a : AgentState) : AgentState :=
  { a with energy := max 0 (a.energy - 2/25) }

/-- Agent._mate (src/agent.py lines 253-254). -/
def mateA (a : AgentState) : AgentState :=
  { a with energy := max 0 (a.energy - 1/20) }

/-- Agent._tick_body (src/agent.py lines 256-262): age by one, pay the
passive energy upkeep, bleed hp when energy is near zero, and force hp to
zero once age has reached max_age. -/
def tickBody (a : AgentState) : AgentState :=
  let a1 := { a with age := a.age + 1, energy := max 0 (a.energy - 1/100) }
  let a2 := if a1.energy ≤ 1/100 then { a1 with hp := max 0 (a1.hp - 3/100) } else a1
  if a2.maxAge ≤ a2.age then { a2 with hp := 0 } else a2

/-- Agent.is_alive (src/agent.py lines 264-265). -/
def isAlive (a : AgentState) : Bool := decide (0 < a.hp)

/-- The side effect of sense() on the cached target (src/agent.py
line 121): a found nearest food overwrites _last_target, otherwise the
cache is kept. -/
def senseAssign (d : Decision) (a : AgentState) : AgentState :=
  match d.senseTarget with
  | some t => { a with lastTarget := some t }
  | none => a

/-- The action dispatch of Agent.update (src/agent.py lines 281-290); any
index other than 0-3 falls through to attack. -/
def actA (bx bY : ℚ) (d : Decision) (a : AgentState) : AgentState :=
  if d.action = 0 then moveA bx bY d.cosv d.sinv d.turn d.intensity a
  else if d.action = 1 then idleA a
  else if d.action = 2 then fleeA bx bY d.cosv d.sinv d.fleeAng d.turn d.intensity a
  else if d.action = 3 then mateA a
  else attackA a

/-- Agent.update (src/agent.py lines 267-292): skip everything when not
alive; otherwise record the sensed target and the chosen action, execute
the action, then run the body tick. -/
def agentUpdate (bx bY : ℚ) (d : Decision) (a : AgentState) : AgentState :=
  if 0 < a.hp then
    tickBody (actA bx bY d { senseAssign d a with lastAction := d.action })
  else a

/-- Run of an agent under a stream of decisions: state after n ticks. -/
def agentRun (bx bY : ℚ) (ds : ℕ → Decision) (a0 : AgentState) (n : ℕ) : AgentState :=
  match n with
  | 0 => a0
  | n + 1 => agentUpdate bx bY (ds n) (agentRun bx bY ds a0 n)

/-- The C1 state invariant: vitals within their derived bounds, age within
max_age, and hp already zero whenever age has reached max_age. -/
def AgentInv (a : AgentState) : Prop :=
  0 ≤ a.hp ∧ a.hp ≤ a.maxHp ∧ 0 ≤ a.energy ∧ a.energy ≤ a.maxEnergy ∧
    a.age ≤ a.maxAge ∧ (a.maxAge ≤ a.age → a.hp = 0)

/-- Decidability of the invariant, for concrete witnesses. -/
instance (a : AgentState) : Decidable (AgentInv a) := by
  unfold AgentInv
  infer_instance

/-- Squared distance (src/agent.py lines 22-25). -/
def dist2 (ax ay px py : ℝ) : ℝ :=
  (ax - px) * (ax - px) + (ay - py) * (ay - py)

/-- The clamp helper of src/agent.py lines 6-11 over the reals, as used by
sense(). -/
noncomputable def clampR (v lo hi : ℝ) : ℝ :=
  if v < lo then lo else if hi < v then hi else v

/-- Loop state of the nearest-agent scan of sense() (src/agent.py
lines 130-146): running best position, its squared distance, the in-range
friend count and the `enemies` counter. -/
structure ScanSt where
  best : Option (ℝ × ℝ)
  bestD2 : ℝ
  friends : ℕ
  enemies : ℕ

/-- One iteration of the agent loop in sense() (src/agent.py
lines 135-146): the friend count is gated on d2 ≤ sight², while the
best-candidate update is gated only on d2 < best so far. -/
noncomputable def enemyScanStep (sx sy r2 : ℝ) (st : ScanSt) (p : ℝ × ℝ) : ScanSt :=
  let d2 := dist2 sx sy p.1 p.2
  let friends' := if d2 ≤ r2 then st.friends + 1 else st.friends
  if d2 < st.bestD2 then ⟨some p, d2, friends', st.enemies + 1⟩
  else ⟨st.best, st.bestD2, friends', st.enemies⟩

/-- The whole agent loop of sense() over the other agents' positions
(the `a is self` skip is modelled by the list holding only the others). -/
noncomputable def enemyScan (sx sy r2 : ℝ) (others : List (ℝ × ℝ)) : ScanSt :=
  others.foldl (enemyScanStep sx sy r2) ⟨none, 1000000000000000000, 0, 0⟩

/-- The agent-derived feature block of sense() (src/agent.py
lines 123-155): (friend_count_n, enemy_count_n, enemy_d_n, enemy_dx_n,
enemy_dy_n). -/
noncomputable def senseEnemyFeatures (sx sy sight : ℝ) (others : List (ℝ × ℝ)) :
    ℝ × ℝ × ℝ × ℝ × ℝ :=
  if others = [] then (0, 0, 1, 0, 0)
  else
    let st := enemyScan sx sy (sight * sight) others
    let fc := clampR ((st.friends : ℝ) / 10) 0 1
    let ec := clampR ((st.enemies : ℝ) / 10) 0 1
    match st.best with
    | none => (fc, ec, 1, 0, 0)
    | some b =>
      (fc, ec,
       clampR (Real.sqrt st.bestD2 / max (1/1000000000) sight) 0 1,
       clampR ((b.1 - sx) / max (1/1000000000) sight) (-1) 1,
       clampR ((b.2 - sy) / max (1/1000000000) sight) (-1) 1)

/-- Loop state of the nearest-food scan of sense() (src/agent.py
lines 105-113). -/
structure FoodScanSt where
  best : Option (ℝ × ℝ)
  bestD2 : ℝ

/-- One iteration of the food loop in sense() (src/agent.py
lines 107-113): no sight-radius gate at all. -/
noncomputable def foodScanStep (sx sy : ℝ) (st : FoodScanSt) (p : ℝ × ℝ) : FoodScanSt :=
  let d2 := dist2 sx sy p.1 p.2
  if d2 < st.bestD2 then ⟨some p, d2⟩ else st

/-- The whole food loop of sense(). -/
noncomputable def foodScan (sx sy : ℝ) (foods : List (ℝ × ℝ)) : FoodScanSt :=
  foods.foldl (foodScanStep sx sy) ⟨none, 1000000000000000000⟩

/-- The food-derived feature block of sense() (src/agent.py
lines 103-120): (food_d_n, food_dx_n, food_dy_n). -/
noncomputable def senseFoodFeatures (sx sy sight : ℝ) (foods : List (ℝ × ℝ)) :
    ℝ × ℝ × ℝ :=
  if foods = [] then (1, 0, 0)
  else
    match (foodScan sx sy foods).best with
    | none => (1, 0, 0)
    | some b =>
      (clampR (Real.sqrt (foodScan sx sy foods).bestD2 / max (1/1000000000) sight) 0 1,
       clampR ((b.1 - sx) / max (1/1000000000) sight) (-1) 1,
       clampR ((b.2 - sy) / max (1/1000000000) sight) (-1) 1)

/-- World state consulted by the tick loop (src/environment.py): grid
dimensions, the food-source list and the per-id area records. -/
structure Env where
  gridWidth : ℤ
  gridHeight : ℤ
  sources : List FoodSrc
  areas : ℕ → AreaSt

/-- Environment.is_food_source_at (src/environment.py lines 74-76): true
when a non-destroyed source sits at the cell. -/
def isFoodSourceAt (sources : List FoodSrc) (x y : ℤ) : Bool :=
  sources.any (fun fs => decide (fs.x = x) && decide (fs.y = y) && !fs.isDestroyed)

/-- Environment.get_area_at (src/environment.py lines 82-93): quadrant of
the cell relative to the grid midpoint, as an area id. -/
def getAreaAt (gw gh x y : ℤ) : ℕ :=
  let midX := gw / 2
  let midY := gh / 2
  if x < midX ∧ y < midY then 1
  else if midX ≤ x ∧ y < midY then 2
  else if x < midX ∧ midY ≤ y then 3
  else 4

/-- The per-source expansion attempt of the tick loop (src/environment.py
lines 154-170): r stands for the sampled random.random() and dx, dy for
the sampled randint(-3, 3) offsets. On success the same producer class is
cloned at the offset cell and the area's live counter is incremented. -/
def expansionStep (r : ℚ) (dx dy : ℤ) (env : Env) (src : FoodSrc) : Env :=
  if r < (env.areas src.areaId).expansionChance then
    if 0 ≤ src.x + dx ∧ src.x + dx < env.gridWidth ∧
        0 ≤ src.y + dy ∧ src.y + dy < env.gridHeight ∧
        isFoodSourceAt env.sources (src.x + dx) (src.y + dy) = false ∧
        getAreaAt env.gridWidth env.gridHeight (src.x + dx) (src.y + dy) = src.areaId ∧
        (env.areas src.areaId).currentFoodSources < (env.areas src.areaId).maxFoodSources then
      { env with
        sources := env.sources ++ [mkSource src.kind (src.x + dx) (src.y + dy) src.areaId],
        areas := fun i => if i = src.areaId then
            { env.areas i with
                currentFoodSources := (env.areas i).currentFoodSources + 1 }
          else env.areas i }
    else env
  else env

/-- The inner position loop of _spawn_initial_food_sources
(src/environment.py lines 120-123): spawn at each listed position that is
inside the corner rectangle and unoccupied, accumulating into the global
source list. -/
def spawnPositions (k : SourceKind) (aid : ℕ) (xmin ymin xmax ymax : ℤ)
    (ps : List (ℤ × ℤ)) (srcs : List FoodSrc) : List FoodSrc :=
  ps.foldl (fun acc p =>
    if xmin ≤ p.1 ∧ p.1 ≤ xmax ∧ ymin ≤ p.2 ∧ p.2 ≤ ymax then
      if isFoodSourceAt acc p.1 p.2 = false then acc ++ [mkSource k p.1 p.2 aid]
      else acc
    else acc) srcs

/-- The corners table of _spawn_initial_food_sources (src/environment.py
lines 100-105). -/
def cornerFor (gw gh : ℤ) (aid : ℕ) : ℤ × ℤ × ℤ × ℤ :=
  let midX := gw / 2
  let midY := gh / 2
  if aid = 1 then (0, 0, midX - 1, midY - 1)
  else if aid = 2 then (midX, 0, gw - 1, midY - 1)
  else if aid = 3 then (0, midY, midX - 1, gh - 1)
  else (midX, midY, gw - 1, gh - 1)

/-- The initial_sources table of _spawn_initial_food_sources
(src/environment.py lines 107-112). -/
def initialSourceTable (gw gh : ℤ) : List (SourceKind × ℕ × List (ℤ × ℤ)) :=
  let midX := gw / 2
  let midY := gh / 2
  [(SourceKind.grass, 1, [(2, 2), (4, 4)]),
   (SourceKind.fruitTree, 2, [(midX + 1, 1), (midX + 3, 3)]),
   (SourceKind.cactus, 3, [(2, midY + 1), (4, midY + 3)]),
   (SourceKind.berry, 4, [(midX + 1, midY + 1), (midX + 3, midY + 3)])]

/-- Environment._spawn_initial_food_sources (src/environment.py
lines 96-123): for each table entry, spawn its positions only when the
area has no sources yet; the per-id area records are never touched. -/
def spawnInitial (env : Env) : Env :=
  let step := fun (srcs : List FoodSrc) (entry : SourceKind × ℕ × List (ℤ × ℤ)) =>
    if (srcs.filter (fun fs => decide (fs.areaId = entry.2.1))).isEmpty then
      spawnPositions entry.1 entry.2.1
        (cornerFor env.gridWidth env.gridHeight entry.2.1).1
        (cornerFor env.gridWidth env.gridHeight entry.2.1).2.1
        (cornerFor env.gridWidth env.gridHeight entry.2.1).2.2.1
        (cornerFor env.gridWidth env.gridHeight entry.2.1).2.2.2
        entry.2.2 srcs
    else srcs
  { env with sources :=
      (initialSourceTable env.gridWidth env.gridHeight).foldl step env.sources }

/-- C8: Food.update() increments age by 1 and reports expired exactly when
the new age has reached expiry_time; with expiry_time = 500 it reports
not-expired while the new age is at most 499 and expired when the new age
is 500. -/
theorem foodUpdate_expiry (f : FoodItem) :
    (foodUpdate f).2.age = f.age + 1 ∧
    ((foodUpdate f).1 = true ↔ f.expiryTime ≤ f.age + 1) ∧
    (f.expiryTime = 500 →
      (f.age + 1 ≤ 499 → (foodUpdate f).1 = false) ∧
      (f.age + 1 = 500 → (foodUpdate f).1 = true)) := by
  refine ⟨rfl, by simp [foodUpdate], fun h => ⟨fun hlt => ?_, fun heq => ?_⟩⟩
  · simp [foodUpdate, h]
    omega
  · simp [foodUpdate, h]
    omega

/-- Witness for C8 at a concrete food item of expiry 500 and age 3. -/
theorem foodUpdate_expiry_witness :
    (foodUpdate ⟨2, 2, 20, "herbivore", 500, 3⟩).2.age = 3 + 1 ∧
      ((foodUpdate ⟨2, 2, 20, "herbivore", 500, 3⟩).1 = true ↔ (500 : ℕ) ≤ 3 + 1) :=
  ⟨(foodUpdate_expiry ⟨2, 2, 20, "herbivore", 500, 3⟩).1,
   (foodUpdate_expiry ⟨2, 2, 20, "herbivore", 500, 3⟩).2.1⟩

/-- C4 counterexample: with the area's live counter already at 0 (its
clamp floor), destroying a fresh source twice leaves the counter at 0, a
net decrement of 0 rather than exactly 1. -/
theorem destroy_twice_not_always_one :
    (destroy (destroy (mkGrass 2 2 1) plainsArea).1 (destroy (mkGrass 2 2 1) plainsArea).2).2.currentFoodSources
        + 1 ≠ plainsArea.currentFoodSources := by
  decide

/-- C4 amended: destroying a not-yet-destroyed source twice decrements the
area's live counter by exactly 1 provided the counter was at least 1
(the decrement is clamped at zero); in every case the second destroy call
changes nothing. -/
theorem destroy_idempotent (s : FoodSrc) (ar : AreaSt) (hs : s.isDestroyed = false) :
    (1 ≤ ar.currentFoodSources →
      (destroy (destroy s ar).1 (destroy s ar).2).2.currentFoodSources + 1
        = ar.currentFoodSources) ∧
    destroy (destroy s ar).1 (destroy s ar).2 = destroy s ar := by
  constructor
  · intro h1
    simp [destroy, hs]
    omega
  · simp [destroy, hs]

/-- Witness for C4 at a concrete live source whose area counter is 3. -/
theorem destroy_idempotent_witness :
    ((mkGrass 2 2 1).isDestroyed = false ∧ 1 ≤ (3 : ℕ)) ∧
    (destroy (destroy (mkGrass 2 2 1) ⟨1, 6/5, 3/1000, 5, 3⟩).1
        (destroy (mkGrass 2 2 1) ⟨1, 6/5, 3/1000, 5, 3⟩).2).2.currentFoodSources + 1
      = (⟨1, 6/5, 3/1000, 5, 3⟩ : AreaSt).currentFoodSources :=
  ⟨⟨rfl, by decide⟩,
   (destroy_idempotent (mkGrass 2 2 1) ⟨1, 6/5, 3/1000, 5, 3⟩ rfl).1 (by decide)⟩

/-- C5 counterexample: updating an already-destroyed grass patch is not a
no-op on the source's state: its age is still incremented. -/
theorem destroyed_update_ages :
    (grassUpdate { mkGrass 2 2 1 with isDestroyed := true } plainsArea).2.1.age
      ≠ (mkGrass 2 2 1).age := by
  decide

/-- C5 amended: for every food-source variant, update() on an already
destroyed source returns no Food and leaves everything unchanged except
the age, which is still incremented by 1; in particular the tick counter,
food_left and the area's live counter are unchanged. -/
theorem destroyed_update_only_ages (s : FoodSrc) (ar : AreaSt) (randv : ℚ)
    (hs : s.isDestroyed = true) :
    grassUpdate s ar = (none, { s with age := s.age + 1 }, ar) ∧
    berryUpdate randv s ar = (none, { s with age := s.age + 1 }, ar) ∧
    fruitTreeUpdate s ar = (none, { s with age := s.age + 1 }, ar) ∧
    cactusUpdate s ar = (none, { s with age := s.age + 1 }, ar) := by
  have hage : incrementAge s ar = ({ s with age := s.age + 1 }, ar) := by
    simp only [incrementAge, destroy, hs]
    split <;> simp [hs]
  refine ⟨?_, ?_, ?_, ?_⟩ <;>
    simp [grassUpdate, berryUpdate, fruitTreeUpdate, cactusUpdate, hage, hs]

/-- Witness for C5 at a concrete destroyed grass patch. -/
theorem destroyed_update_only_ages_witness :
    ({ mkGrass 2 2 1 with isDestroyed := true } : FoodSrc).isDestroyed = true ∧
    grassUpdate { mkGrass 2 2 1 with isDestroyed := true } plainsArea
      = (none,
         { { mkGrass 2 2 1 with isDestroyed := true } with
            age := ({ mkGrass 2 2 1 with isDestroyed := true } : FoodSrc).age + 1 },
         plainsArea) :=
  ⟨rfl,
   (destroyed_update_only_ages { mkGrass 2 2 1 with isDestroyed := true }
      plainsArea 0 rfl).1⟩

/-- Unfolding of one trajectory step. -/
theorem grassSt_succ (n : ℕ) :
    grassSt (n + 1) = (grassUpdate (grassSt n).1 (grassSt n).2).2 :=
  Function.iterate_succ_apply' grassStep n (mkGrass 2 2 1, plainsArea)

/-- Unfolding of one trajectory output. -/
theorem grassOut_succ (n : ℕ) :
    grassOut (n + 1) = (grassUpdate (grassSt n).1 (grassSt n).2).1 := by
  simp [grassOut]

/-- One grass update step on a live patch literal that is still inside its
lifespan, evaluated in closed form. -/
theorem grassUpdate_lit (x y : ℤ) (aid : ℕ) (fl : ℚ) (n t : ℕ)
    (hlife : n + 1 < 1000) :
    grassUpdate ⟨x, y, SourceKind.grass, aid, fl, false, n, 1000, 100, 100, t, 0, 0⟩ plainsArea
      = (if 100 ≤ t + 1 ∧ 10 ≤ (if fl < 100 then min 100 (fl + 3/25) else fl) then
           (some ⟨x, y, 20, "herbivore", 500, 0⟩,
            ⟨x, y, SourceKind.grass, aid,
              max 0 ((if fl < 100 then min 100 (fl + 3/25) else fl) - 10),
              false, n + 1, 1000, 100, 100, 0, 0, 0⟩, plainsArea)
         else
           (none,
            ⟨x, y, SourceKind.grass, aid,
              (if fl < 100 then min 100 (fl + 3/25) else fl),
              false, n + 1, 1000, 100, 100, t + 1, 0, 0⟩, plainsArea)) := by
  have hm : (1 : ℚ)/10 * plainsArea.regenModifier = 3/25 := by
    norm_num [plainsArea]
  have hc : ¬ ((1000 : ℕ) ≤ n + 1) := by omega
  have h1 : incrementAge (⟨x, y, SourceKind.grass, aid, fl, false, n, 1000, 100, 100, t, 0, 0⟩ : FoodSrc) plainsArea
      = (⟨x, y, SourceKind.grass, aid, fl, false, n + 1, 1000, 100, 100, t, 0, 0⟩, plainsArea) := by
    simp [incrementAge, hc]
  simp only [grassUpdate, h1, hm]
  by_cases hfl : fl < 100
  · simp only [hfl, if_true]
    by_cases hdrop : (100 ≤ t + 1 ∧ (10 : ℚ) ≤ min 100 (fl + 3/25))
    · simp [hdrop]
    · simp [hdrop]
  · simp only [hfl, if_false]
    by_cases hdrop : (100 ≤ t + 1 ∧ (10 : ℚ) ≤ fl)
    · simp [hdrop]
    · simp [hdrop]

/-- Inductive invariant of the grass-patch trajectory: while n is inside
the lifespan, the patch is alive, its age is n, its tick counter is
n mod 100, and its food_left lies between min(100, 90 + 0.12·(n mod 100))
and 100 (regeneration is 0.1 times the Plains modifier 1.2 per tick). -/
theorem grassSt_inv (n : ℕ) (hn : n ≤ 999) :
    ∃ fl : ℚ, min 100 (90 + (3/25) * ((n % 100 : ℕ) : ℚ)) ≤ fl ∧ fl ≤ 100 ∧
      grassSt n = (⟨2, 2, SourceKind.grass, 1, fl, false, n, 1000, 100, 100, n % 100, 0, 0⟩,
                   plainsArea) := by
  induction n with
  | zero =>
    refine ⟨100, by norm_num, by norm_num, ?_⟩
    simp [grassSt, mkGrass]
  | succ n ih =>
    obtain ⟨fl, hlo, hhi, hst⟩ := ih (by omega)
    have hstep := grassSt_succ n
    rw [hst] at hstep
    rw [grassUpdate_lit 2 2 1 fl n (n % 100) (by omega)] at hstep
    rcases Nat.lt_or_ge (n % 100) 99 with hj | hj
    · -- no drop this tick
      have hcond : ¬ (100 ≤ n % 100 + 1 ∧
          (10 : ℚ) ≤ (if fl < 100 then min 100 (fl + 3/25) else fl)) := by
        rintro ⟨h100, -⟩
        omega
      rw [if_neg hcond] at hstep
      refine ⟨if fl < 100 then min 100 (fl + 3/25) else fl, ?_, ?_, ?_⟩
      · have hcast : (((n + 1) % 100 : ℕ) : ℚ) = ((n % 100 : ℕ) : ℚ) + 1 := by
          have hmod : (n + 1) % 100 = n % 100 + 1 := by omega
          rw [hmod]
          push_cast
          ring
        rw [hcast]
        by_cases hfl : fl < 100
        · rw [if_pos hfl]
          rcases le_or_lt (90 + 3/25 * ((n % 100 : ℕ) : ℚ)) 100 with hA | hA
          · have hbase : 90 + 3/25 * ((n % 100 : ℕ) : ℚ) ≤ fl := by
              rwa [min_eq_right hA] at hlo
            refine le_min (min_le_left _ _) ?_
            refine le_trans (min_le_right _ _) ?_
            linarith
          · have : (100 : ℚ) ≤ fl := by
              rwa [min_eq_left (le_of_lt hA)] at hlo
            linarith
        · rw [if_neg hfl]
          have h100 : (100 : ℚ) ≤ fl := not_lt.mp hfl
          have hfl100 : fl = 100 := le_antisymm hhi h100
          rw [hfl100]
          exact min_le_left _ _
      · by_cases hfl : fl < 100
        · rw [if_pos hfl]; exact min_le_left _ _
        · rw [if_neg hfl]; exact hhi
      · have hmod : (n + 1) % 100 = n % 100 + 1 := by omega
        rw [hmod]
        exact hstep
    · -- drop tick: n % 100 = 99, food is full
      have hj' : n % 100 = 99 := by omega
      have h100 : (100 : ℚ) ≤ fl := by
        rw [hj'] at hlo
        have hmin : min (100 : ℚ) (90 + 3/25 * ((99 : ℕ) : ℚ)) = 100 := by
          rw [min_eq_left]
          push_cast
          norm_num
        rwa [hmin] at hlo
      have hfl100 : fl = 100 := le_antisymm hhi h100
      rw [hj', hfl100] at hstep
      have hif : (if (100 : ℚ) < 100 then min 100 ((100 : ℚ) + 3/25) else (100 : ℚ)) = 100 := by
        norm_num
      rw [hif] at hstep
      rw [if_pos (by norm_num)] at hstep
      have hmax : max (0 : ℚ) (100 - 10) = 90 := by
        rw [max_eq_right] <;> norm_num
      rw [hmax] at hstep
      refine ⟨90, ?_, by norm_num, ?_⟩
      · have hz : (n + 1) % 100 = 0 := by omega
        rw [hz]
        norm_num
      · have hz : (n + 1) % 100 = 0 := by omega
        rw [hz]
        exact hstep

/-- The grass-patch state just before its 1000th update: alive, age 999,
tick counter 99, food fully regenerated. -/
theorem grassSt_999 :
    grassSt 999 = (⟨2, 2, SourceKind.grass, 1, 100, false, 999, 1000, 100, 100, 99, 0, 0⟩,
                   plainsArea) := by
  obtain ⟨fl, hlo, hhi, hst⟩ := grassSt_inv 999 (le_refl 999)
  rw [show (999 % 100 : ℕ) = 99 from by norm_num] at hlo hst
  have hmin : min (100 : ℚ) (90 + 3/25 * ((99 : ℕ) : ℚ)) = 100 := by
    rw [min_eq_left]
    push_cast
    norm_num
  rw [hmin] at hlo
  have hfl100 : fl = 100 := le_antisymm hhi hlo
  rw [hfl100] at hst
  exact hst

/-- C2 amended: the Plains grass patch (interval 100, food_left stays at
least 10 throughout) emits exactly one Food on every 100th update call and
none in between, for every call within its lifespan (calls 1..999); the
1000th call destroys the source by lifespan expiry and emits nothing. -/
theorem grass_emits_every_100 (n : ℕ) (h1 : 1 ≤ n) (h2 : n ≤ 999) :
    ((grassOut n).isSome = true ↔ n % 100 = 0) := by
  obtain ⟨m, rfl⟩ : ∃ m, n = m + 1 := ⟨n - 1, by omega⟩
  obtain ⟨fl, hlo, hhi, hst⟩ := grassSt_inv m (by omega)
  have hout := grassOut_succ m
  rw [hst] at hout
  rw [grassUpdate_lit 2 2 1 fl m (m % 100) (by omega)] at hout
  rcases Nat.lt_or_ge (m % 100) 99 with hj | hj
  · have hcond : ¬ (100 ≤ m % 100 + 1 ∧
        (10 : ℚ) ≤ (if fl < 100 then min 100 (fl + 3/25) else fl)) := by
      rintro ⟨h100, -⟩
      omega
    rw [if_neg hcond] at hout
    simp only [hout]
    constructor
    · intro h
      exact absurd h (by simp)
    · intro h
      omega
  · have hj' : m % 100 = 99 := by omega
    have h100 : (100 : ℚ) ≤ fl := by
      rw [hj'] at hlo
      have hmin : min (100 : ℚ) (90 + 3/25 * ((99 : ℕ) : ℚ)) = 100 := by
        rw [min_eq_left]
        push_cast
        norm_num
      rwa [hmin] at hlo
    have hfl100 : fl = 100 := le_antisymm hhi h100
    rw [hj', hfl100] at hout
    have hif : (if (100 : ℚ) < 100 then min 100 ((100 : ℚ) + 3/25) else (100 : ℚ)) = 100 := by
      norm_num
    rw [hif] at hout
    rw [if_pos (by norm_num)] at hout
    simp only [hout]
    constructor
    · intro _
      omega
    · intro _
      rfl

/-- Witness for C2 at the 100th call, which does emit a Food. -/
theorem grass_emits_every_100_witness :
    ((1 : ℕ) ≤ 100 ∧ (100 : ℕ) ≤ 999) ∧
      ((grassOut 100).isSome = true ↔ 100 % 100 = 0) :=
  ⟨⟨by decide, by decide⟩, grass_emits_every_100 100 (by decide) (by decide)⟩

/-- C2 counterexample: 1000 is a multiple of 100 and the patch's food_left
stayed at least 10 on the whole trajectory, yet the 1000th update call
emits nothing because the lifespan check destroys the source first. -/
theorem grass_silent_at_1000 :
    1000 % 100 = 0 ∧ grassOut 1000 = none ∧
      ∀ k, k ≤ 1000 → 10 ≤ (grassSt k).1.foodLeft := by
  refine ⟨by norm_num, ?_, ?_⟩
  · have hout : grassOut 1000 = (grassUpdate (grassSt 999).1 (grassSt 999).2).1 := by
      rw [show (1000 : ℕ) = 999 + 1 from by norm_num, grassOut_succ]
    rw [grassSt_999] at hout
    rw [hout]
    decide
  · intro k hk
    rcases Nat.lt_or_ge k 1000 with hk' | hk'
    · obtain ⟨fl, hlo, hhi, hst⟩ := grassSt_inv k (by omega)
      rw [hst]
      have hge : (90 : ℚ) ≤ min 100 (90 + 3/25 * ((k % 100 : ℕ) : ℚ)) := by
        refine le_min (by norm_num) ?_
        have : (0 : ℚ) ≤ ((k % 100 : ℕ) : ℚ) := Nat.cast_nonneg _
        linarith
      show (10 : ℚ) ≤ fl
      linarith
    · have hk1000 : k = 1000 := by omega
      subst hk1000
      have hstep : grassSt 1000 = (grassUpdate (grassSt 999).1 (grassSt 999).2).2 := by
        rw [show (1000 : ℕ) = 999 + 1 from by norm_num, grassSt_succ]
      rw [grassSt_999] at hstep
      rw [hstep]
      decide

/-- The rescaled intensity of a move lies in [0, 1]. -/
theorem clampQ_unit (v : ℚ) : 0 ≤ clampQ v 0 1 ∧ clampQ v 0 1 ≤ 1 := by
  unfold clampQ
  split_ifs <;> constructor <;> linarith

/-- Boundary handling never touches the vitals or derived stats. -/
theorem applyBounds_vitals (bx bY nx ny na : ℚ) (a : AgentState) :
    (applyBounds bx bY nx ny na a).hp = a.hp ∧
    (applyBounds bx bY nx ny na a).energy = a.energy ∧
    (applyBounds bx bY nx ny na a).age = a.age ∧
    (applyBounds bx bY nx ny na a).maxHp = a.maxHp ∧
    (applyBounds bx bY nx ny na a).maxEnergy = a.maxEnergy ∧
    (applyBounds bx bY nx ny na a).maxAge = a.maxAge := by
  unfold applyBounds
  split_ifs <;> simp

/-- A move keeps hp, age and the derived stats; energy stays within
bounds, paying a positive movement cost clamped at zero. -/
theorem moveA_props (bx bY cosv sinv turn intensity : ℚ) (a : AgentState)
    (he0 : 0 ≤ a.energy) (he1 : a.energy ≤ a.maxEnergy) :
    (moveA bx bY cosv sinv turn intensity a).hp = a.hp ∧
    (moveA bx bY cosv sinv turn intensity a).age = a.age ∧
    (moveA bx bY cosv sinv turn intensity a).maxHp = a.maxHp ∧
    (moveA bx bY cosv sinv turn intensity a).maxEnergy = a.maxEnergy ∧
    (moveA bx bY cosv sinv turn intensity a).maxAge = a.maxAge ∧
    0 ≤ (moveA bx bY cosv sinv turn intensity a).energy ∧
    (moveA bx bY cosv sinv turn intensity a).energy ≤ a.maxEnergy := by
  obtain ⟨hin0, hin1⟩ := clampQ_unit (1/2 + (1/2) * intensity)
  obtain ⟨hb1, hb2, hb3, hb4, hb5, hb6⟩ :=
    applyBounds_vitals bx bY
      (a.x + cosv * (a.baseSpeed * (1/5 + (13/10) * clampQ (1/2 + (1/2) * intensity) 0 1)))
      (a.y - sinv * (a.baseSpeed * (1/5 + (13/10) * clampQ (1/2 + (1/2) * intensity) 0 1)))
      (a.angle + turn * (a.agility * (1/2))) a
  simp only [moveA]
  refine ⟨hb1, hb3, hb4, hb5, hb6, le_max_left _ _, ?_⟩
  rw [hb2]
  refine max_le (le_trans he0 he1) ?_
  linarith

/-- Idling keeps hp, age and the derived stats; energy stays within
bounds, recovering toward the cap. -/
theorem idleA_props (a : AgentState)
    (he0 : 0 ≤ a.energy) (he1 : a.energy ≤ a.maxEnergy) :
    (idleA a).hp = a.hp ∧ (idleA a).age = a.age ∧
    (idleA a).maxHp = a.maxHp ∧ (idleA a).maxEnergy = a.maxEnergy ∧
    (idleA a).maxAge = a.maxAge ∧
    0 ≤ (idleA a).energy ∧ (idleA a).energy ≤ a.maxEnergy := by
  unfold idleA
  refine ⟨rfl, rfl, rfl, rfl, rfl, ?_, min_le_left _ _⟩
  exact le_min (le_trans he0 he1) (by linarith)

/-- Attacking keeps hp, age and the derived stats; energy stays within
bounds. -/
theorem attackA_props (a : AgentState)
    (he0 : 0 ≤ a.energy) (he1 : a.energy ≤ a.maxEnergy) :
    (attackA a).hp = a.hp ∧ (attackA a).age = a.age ∧
    (attackA a).maxHp = a.maxHp ∧ (attackA a).maxEnergy = a.maxEnergy ∧
    (attackA a).maxAge = a.maxAge ∧
    0 ≤ (attackA a).energy ∧ (attackA a).energy ≤ a.maxEnergy := by
  unfold attackA
  exact ⟨rfl, rfl, rfl, rfl, rfl, le_max_left _ _,
    max_le (le_trans he0 he1) (by linarith)⟩

/-- Mating keeps hp, age and the derived stats; energy stays within
bounds. -/
theorem mateA_props (a : AgentState)
    (he0 : 0 ≤ a.energy) (he1 : a.energy ≤ a.maxEnergy) :
    (mateA a).hp = a.hp ∧ (mateA a).age = a.age ∧
    (mateA a).maxHp = a.maxHp ∧ (mateA a).maxEnergy = a.maxEnergy ∧
    (mateA a).maxAge = a.maxAge ∧
    0 ≤ (mateA a).energy ∧ (mateA a).energy ≤ a.maxEnergy := by
  unfold mateA
  exact ⟨rfl, rfl, rfl, rfl, rfl, le_max_left _ _,
    max_le (le_trans he0 he1) (by linarith)⟩

/-- Fleeing keeps hp, age and the derived stats; energy stays within
bounds. -/
theorem fleeA_props (bx bY cosv sinv fleeAng turn intensity : ℚ) (a : AgentState)
    (he0 : 0 ≤ a.energy) (he1 : a.energy ≤ a.maxEnergy) :
    (fleeA bx bY cosv sinv fleeAng turn intensity a).hp = a.hp ∧
    (fleeA bx bY cosv sinv fleeAng turn intensity a).age = a.age ∧
    (fleeA bx bY cosv sinv fleeAng turn intensity a).maxHp = a.maxHp ∧
    (fleeA bx bY cosv sinv fleeAng turn intensity a).maxEnergy = a.maxEnergy ∧
    (fleeA bx bY cosv sinv fleeAng turn intensity a).maxAge = a.maxAge ∧
    0 ≤ (fleeA bx bY cosv sinv fleeAng turn intensity a).energy ∧
    (fleeA bx bY cosv sinv fleeAng turn intensity a).energy ≤ a.maxEnergy := by
  unfold fleeA
  cases htgt : a.lastTarget with
  | none => simpa using moveA_props bx bY cosv sinv turn intensity a he0 he1
  | some t =>
    have h := moveA_props bx bY cosv sinv 0 (max (1/5) intensity)
      { a with angle := qmod fleeAng 360, lastTarget := some t }
      (by simpa using he0) (by simpa using he1)
    simpa using h

/-- The action dispatch keeps hp, age and the derived stats; energy stays
within bounds. -/
theorem actA_props (bx bY : ℚ) (d : Decision) (a : AgentState)
    (he0 : 0 ≤ a.energy) (he1 : a.energy ≤ a.maxEnergy) :
    (actA bx bY d a).hp = a.hp ∧ (actA bx bY d a).age = a.age ∧
    (actA bx bY d a).maxHp = a.maxHp ∧ (actA bx bY d a).maxEnergy = a.maxEnergy ∧
    (actA bx bY d a).maxAge = a.maxAge ∧
    0 ≤ (actA bx bY d a).energy ∧ (actA bx bY d a).energy ≤ a.maxEnergy := by
  unfold actA
  split_ifs
  · exact moveA_props bx bY d.cosv d.sinv d.turn d.intensity a he0 he1
  · exact idleA_props a he0 he1
  · exact fleeA_props bx bY d.cosv d.sinv d.fleeAng d.turn d.intensity a he0 he1
  · exact mateA_props a he0 he1
  · exact attackA_props a he0 he1

/-- Recording the sensed target keeps every vital and derived stat. -/
theorem senseAssign_vitals (d : Decision) (a : AgentState) :
    (senseAssign d a).hp = a.hp ∧ (senseAssign d a).energy = a.energy ∧
    (senseAssign d a).age = a.age ∧ (senseAssign d a).maxHp = a.maxHp ∧
    (senseAssign d a).maxEnergy = a.maxEnergy ∧ (senseAssign d a).maxAge = a.maxAge := by
  unfold senseAssign
  cases d.senseTarget <;> simp

/-- The body tick restores the invariant from the post-action bounds,
provided the agent has not yet reached max_age. -/
theorem tickBody_inv (a : AgentState)
    (hhp0 : 0 ≤ a.hp) (hhp1 : a.hp ≤ a.maxHp)
    (he0 : 0 ≤ a.energy) (he1 : a.energy ≤ a.maxEnergy)
    (hage : a.age < a.maxAge) :
    AgentInv (tickBody a) := by
  have hmaxe : (0 : ℚ) ≤ a.maxEnergy := le_trans he0 he1
  have hmaxh : (0 : ℚ) ≤ a.maxHp := le_trans hhp0 hhp1
  simp only [tickBody, AgentInv]
  split_ifs with h1 h2 h3 <;> dsimp only at *
  · exact ⟨le_refl 0, hmaxh, le_max_left _ _, max_le hmaxe (by linarith),
      by omega, fun _ => rfl⟩
  · exact ⟨le_max_left _ _, max_le hmaxh (by linarith), le_max_left _ _,
      max_le hmaxe (by linarith), by omega, fun hma => absurd hma h2⟩
  · exact ⟨le_refl 0, hmaxh, le_max_left _ _, max_le hmaxe (by linarith),
      by omega, fun _ => rfl⟩
  · exact ⟨hhp0, hhp1, le_max_left _ _, max_le hmaxe (by linarith),
      by omega, fun hma => absurd hma h3⟩

/-- One live update step preserves the C1 invariant. -/
theorem agentUpdate_inv (bx bY : ℚ) (d : Decision) (a : AgentState)
    (h : AgentInv a) : AgentInv (agentUpdate bx bY d a) := by
  obtain ⟨h1, h2, h3, h4, h5, h6⟩ := h
  by_cases hhp : 0 < a.hp
  · have hage : a.age < a.maxAge := by
      by_contra hc
      push_neg at hc
      have hz := h6 hc
      rw [hz] at hhp
      exact lt_irrefl 0 hhp
    obtain ⟨s1, s2, s3, s4, s5, s6⟩ := senseAssign_vitals d a
    have hb1 : ({ senseAssign d a with lastAction := d.action } : AgentState).hp = a.hp := by
      simpa using s1
    have hb2 : ({ senseAssign d a with lastAction := d.action } : AgentState).energy = a.energy := by
      simpa using s2
    have hb3 : ({ senseAssign d a with lastAction := d.action } : AgentState).age = a.age := by
      simpa using s3
    have hb4 : ({ senseAssign d a with lastAction := d.action } : AgentState).maxHp = a.maxHp := by
      simpa using s4
    have hb5 : ({ senseAssign d a with lastAction := d.action } : AgentState).maxEnergy = a.maxEnergy := by
      simpa using s5
    have hb6 : ({ senseAssign d a with lastAction := d.action } : AgentState).maxAge = a.maxAge := by
      simpa using s6
    obtain ⟨ha1, ha2, ha3, ha4, ha5, ha6, ha7⟩ :=
      actA_props bx bY d { senseAssign d a with lastAction := d.action }
        (by rw [hb2]; exact h3) (by rw [hb2, hb5]; exact h4)
    have hres : AgentInv (tickBody (actA bx bY d
        { senseAssign d a with lastAction := d.action })) := by
      apply tickBody_inv
      · rw [ha1, hb1]; linarith
      · rw [ha1, ha3, hb1, hb4]; exact h2
      · exact ha6
      · rw [ha4, hb5]
        calc (actA bx bY d { senseAssign d a with lastAction := d.action }).energy
            ≤ ({ senseAssign d a with lastAction := d.action } : AgentState).maxEnergy := ha7
          _ = a.maxEnergy := hb5
      · rw [ha2, ha5, hb3, hb6]; exact hage
    unfold agentUpdate
    rw [if_pos hhp]
    exact hres
  · unfold agentUpdate
    rw [if_neg hhp]
    exact ⟨h1, h2, h3, h4, h5, h6⟩

/-- A dead agent is frozen: update() returns immediately. -/
theorem agentUpdate_frozen (bx bY : ℚ) (d : Decision) (a : AgentState)
    (h : ¬ 0 < a.hp) : agentUpdate bx bY d a = a := by
  unfold agentUpdate
  rw [if_neg h]

/-- C1: starting from any state satisfying the vitals invariant, every
update() call keeps 0 ≤ hp ≤ max_hp, 0 ≤ energy ≤ max_energy and
age ≤ max_age; and once age has reached max_age the agent has hp = 0 and
is not alive on every subsequent tick (its state is frozen). -/
theorem agent_update_invariant (bx bY : ℚ) (ds : ℕ → Decision) (a0 : AgentState)
    (h : AgentInv a0) :
    (∀ n, AgentInv (agentRun bx bY ds a0 n)) ∧
    (∀ n m, n ≤ m → (agentRun bx bY ds a0 n).maxAge ≤ (agentRun bx bY ds a0 n).age →
      (agentRun bx bY ds a0 m).hp = 0 ∧ isAlive (agentRun bx bY ds a0 m) = false) := by
  have hinv : ∀ n, AgentInv (agentRun bx bY ds a0 n) := by
    intro n
    induction n with
    | zero => exact h
    | succ n ih => exact agentUpdate_inv bx bY (ds n) _ ih
  refine ⟨hinv, ?_⟩
  intro n m hnm hage
  have hhp0 : (agentRun bx bY ds a0 n).hp = 0 := (hinv n).2.2.2.2.2 hage
  have hfreeze : ∀ k, agentRun bx bY ds a0 (n + k) = agentRun bx bY ds a0 n := by
    intro k
    induction k with
    | zero => rfl
    | succ k ih =>
      have hstep : agentRun bx bY ds a0 (n + k + 1)
          = agentUpdate bx bY (ds (n + k)) (agentRun bx bY ds a0 (n + k)) := rfl
      rw [show n + (k + 1) = n + k + 1 from rfl, hstep, ih]
      apply agentUpdate_frozen
      rw [hhp0]
      exact lt_irrefl 0
  have hm := hfreeze (m - n)
  rw [show n + (m - n) = m from by omega] at hm
  rw [hm]
  refine ⟨hhp0, ?_⟩
  unfold isAlive
  rw [hhp0]
  decide

/-- Witness for C1: a concrete freshly spawned agent satisfies the
invariant, and still does after two update steps under a constant
decision stream. -/
theorem agent_update_invariant_witness :
    AgentInv ⟨0, 0, 0, 10, 10, 0, 10, 10, 300, 1, 30, 0, none⟩ ∧
    AgentInv (agentRun 100 100 (fun _ => ⟨0, 0, 0, 1, 0, 0, none⟩)
      ⟨0, 0, 0, 10, 10, 0, 10, 10, 300, 1, 30, 0, none⟩ 2) :=
  ⟨by decide,
   (agent_update_invariant 100 100 (fun _ => ⟨0, 0, 0, 1, 0, 0, none⟩)
      ⟨0, 0, 0, 10, 10, 0, 10, 10, 300, 1, 30, 0, none⟩ (by decide)).1 2⟩

/-- Reflection of a high x-overflow in closed form: with y in range, the
new x is the overflow mirrored about max_x = bound − 1e-6 and clamped, and
the heading follows the 180-degree rule. -/
theorem applyBounds_reflect_high (a : AgentState) (bx bY newX newY newAngle : ℚ)
    (hbx : 0 < bx) (hby : 0 < bY) (hx : bx ≤ newX) (hy0 : 0 ≤ newY) (hy1 : newY < bY) :
    (applyBounds bx bY newX newY newAngle a).x
        = max 0 (min (2 * max 0 (bx - 1/1000000) - newX) (max 0 (bx - 1/1000000))) ∧
    (applyBounds bx bY newX newY newAngle a).angle = qmod (180 - newAngle) 360 := by
  have h0 : ¬ (bx ≤ 0 ∨ bY ≤ 0) := by
    rintro (h | h) <;> linarith
  have hxc : newX < 0 ∨ bx ≤ newX := Or.inr hx
  have hxneg : ¬ newX < 0 := not_lt.mpr (le_trans (le_of_lt hbx) hx)
  have hyc : ¬ (newY < 0 ∨ bY ≤ newY) := by
    rintro (h | h) <;> linarith
  simp only [applyBounds, if_neg h0, if_pos hxc, if_neg hxneg, if_neg hyc]
  constructor <;> trivial

/-- Reflection of a low x-overflow in closed form: with y in range, the
new x is the overflow mirrored about the crossed bound 0 and clamped, and
the heading follows the 180-degree rule. -/
theorem applyBounds_reflect_low (a : AgentState) (bx bY newX newY newAngle : ℚ)
    (hbx : 0 < bx) (hby : 0 < bY) (hx : newX < 0) (hy0 : 0 ≤ newY) (hy1 : newY < bY) :
    (applyBounds bx bY newX newY newAngle a).x
        = max 0 (min (-newX) (max 0 (bx - 1/1000000))) ∧
    (applyBounds bx bY newX newY newAngle a).angle = qmod (180 - newAngle) 360 := by
  have h0 : ¬ (bx ≤ 0 ∨ bY ≤ 0) := by
    rintro (h | h) <;> linarith
  have hxc : newX < 0 ∨ bx ≤ newX := Or.inl hx
  have hyc : ¬ (newY < 0 ∨ bY ≤ newY) := by
    rintro (h | h) <;> linarith
  simp only [applyBounds, if_neg h0, if_pos hxc, if_pos hx, if_neg hyc]
  constructor <;> trivial

/-- Reflection of a high y-overflow in closed form: with x in range, the
new y is the overflow mirrored about max_y = bound − 1e-6 and clamped, and
the heading follows the 360-degree rule. -/
theorem applyBounds_reflect_high_y (a : AgentState) (bx bY newX newY newAngle : ℚ)
    (hbx : 0 < bx) (hby : 0 < bY) (hx0 : 0 ≤ newX) (hx1 : newX < bx) (hy : bY ≤ newY) :
    (applyBounds bx bY newX newY newAngle a).y
        = max 0 (min (2 * max 0 (bY - 1/1000000) - newY) (max 0 (bY - 1/1000000))) ∧
    (applyBounds bx bY newX newY newAngle a).angle = qmod (360 - newAngle) 360 := by
  have h0 : ¬ (bx ≤ 0 ∨ bY ≤ 0) := by
    rintro (h | h) <;> linarith
  have hxc : ¬ (newX < 0 ∨ bx ≤ newX) := by
    rintro (h | h) <;> linarith
  have hyc : newY < 0 ∨ bY ≤ newY := Or.inr hy
  have hyneg : ¬ newY < 0 := not_lt.mpr (le_trans (le_of_lt hby) hy)
  simp only [applyBounds, if_neg h0, if_neg hxc, if_pos hyc, if_neg hyneg]
  constructor <;> trivial

/-- Reflection of a low y-overflow in closed form: with x in range, the
new y is the overflow mirrored about the crossed bound 0 and clamped, and
the heading follows the 360-degree rule. -/
theorem applyBounds_reflect_low_y (a : AgentState) (bx bY newX newY newAngle : ℚ)
    (hbx : 0 < bx) (hby : 0 < bY) (hx0 : 0 ≤ newX) (hx1 : newX < bx) (hy : newY < 0) :
    (applyBounds bx bY newX newY newAngle a).y
        = max 0 (min (-newY) (max 0 (bY - 1/1000000))) ∧
    (applyBounds bx bY newX newY newAngle a).angle = qmod (360 - newAngle) 360 := by
  have h0 : ¬ (bx ≤ 0 ∨ bY ≤ 0) := by
    rintro (h | h) <;> linarith
  have hxc : ¬ (newX < 0 ∨ bx ≤ newX) := by
    rintro (h | h) <;> linarith
  have hyc : newY < 0 ∨ bY ≤ newY := Or.inl hy
  simp only [applyBounds, if_neg h0, if_neg hxc, if_pos hyc, if_pos hy]
  constructor <;> trivial

/-- C3: when a move takes a coordinate out of [0, bound), _apply_bounds
mirrors the out-of-range coordinate about the crossed bound (max_x or
max_y = bound − 1e-6 on the high side, 0 on the low side), inverts the
matching heading component (the 180-degree rule for x, the 360-degree rule
for y) and clamps the result into range; in particular with bound_x = 100,
pre-move x = 99.5 and speed 2 moving east (heading 0, so cosv = 1,
sinv = 0), the agent ends at the in-bounds mirrored x = 98.499998 with
heading 180 instead of leaving [0, 100). -/
theorem move_reflects_at_bound :
    (∀ (a : AgentState) (bx bY newX newY newAngle : ℚ),
      0 < bx → 0 < bY → bx ≤ newX → 0 ≤ newY → newY < bY →
        (applyBounds bx bY newX newY newAngle a).x
            = max 0 (min (2 * max 0 (bx - 1/1000000) - newX) (max 0 (bx - 1/1000000))) ∧
        (applyBounds bx bY newX newY newAngle a).angle = qmod (180 - newAngle) 360) ∧
    (∀ (a : AgentState) (bx bY newX newY newAngle : ℚ),
      0 < bx → 0 < bY → newX < 0 → 0 ≤ newY → newY < bY →
        (applyBounds bx bY newX newY newAngle a).x
            = max 0 (min (-newX) (max 0 (bx - 1/1000000))) ∧
        (applyBounds bx bY newX newY newAngle a).angle = qmod (180 - newAngle) 360) ∧
    (∀ (a : AgentState) (bx bY newX newY newAngle : ℚ),
      0 < bx → 0 < bY → 0 ≤ newX → newX < bx → bY ≤ newY →
        (applyBounds bx bY newX newY newAngle a).y
            = max 0 (min (2 * max 0 (bY - 1/1000000) - newY) (max 0 (bY - 1/1000000))) ∧
        (applyBounds bx bY newX newY newAngle a).angle = qmod (360 - newAngle) 360) ∧
    (∀ (a : AgentState) (bx bY newX newY newAngle : ℚ),
      0 < bx → 0 < bY → 0 ≤ newX → newX < bx → newY < 0 →
        (applyBounds bx bY newX newY newAngle a).y
            = max 0 (min (-newY) (max 0 (bY - 1/1000000))) ∧
        (applyBounds bx bY newX newY newAngle a).angle = qmod (360 - newAngle) 360) ∧
    (∀ (a : AgentState) (intens : ℚ),
      a.x = 199/2 → a.angle = 0 → a.baseSpeed = 4/3 → intens = 1 →
      0 ≤ a.y → a.y < 100 →
        (moveA 100 100 1 0 0 intens a).x = 49249999/500000 ∧
        0 ≤ (moveA 100 100 1 0 0 intens a).x ∧
        (moveA 100 100 1 0 0 intens a).x < 100 ∧
        (moveA 100 100 1 0 0 intens a).angle = 180) := by
  refine ⟨?_, ?_, ?_, ?_, ?_⟩
  · intro a bx bY newX newY newAngle hbx hby hx hy0 hy1
    exact applyBounds_reflect_high a bx bY newX newY newAngle hbx hby hx hy0 hy1
  · intro a bx bY newX newY newAngle hbx hby hx hy0 hy1
    exact applyBounds_reflect_low a bx bY newX newY newAngle hbx hby hx hy0 hy1
  · intro a bx bY newX newY newAngle hbx hby hx0 hx1 hy
    exact applyBounds_reflect_high_y a bx bY newX newY newAngle hbx hby hx0 hx1 hy
  · intro a bx bY newX newY newAngle hbx hby hx0 hx1 hy
    exact applyBounds_reflect_low_y a bx bY newX newY newAngle hbx hby hx0 hx1 hy
  · intro a intens hax hang hbs hint hy0 hy1
    have e1 : (moveA 100 100 1 0 0 intens a).x
        = (applyBounds 100 100
            (a.x + 1 * (a.baseSpeed * (1/5 + (13/10) * clampQ (1/2 + (1/2) * intens) 0 1)))
            (a.y - 0 * (a.baseSpeed * (1/5 + (13/10) * clampQ (1/2 + (1/2) * intens) 0 1)))
            (a.angle + 0 * (a.agility * (1/2))) a).x := rfl
    have e2 : (moveA 100 100 1 0 0 intens a).angle
        = (applyBounds 100 100
            (a.x + 1 * (a.baseSpeed * (1/5 + (13/10) * clampQ (1/2 + (1/2) * intens) 0 1)))
            (a.y - 0 * (a.baseSpeed * (1/5 + (13/10) * clampQ (1/2 + (1/2) * intens) 0 1)))
            (a.angle + 0 * (a.agility * (1/2))) a).angle := rfl
    have hcl : clampQ (1/2 + (1/2) * (1 : ℚ)) 0 1 = 1 := by
      unfold clampQ
      norm_num
    have harg1 : a.x + 1 * (a.baseSpeed * (1/5 + (13/10) * clampQ (1/2 + (1/2) * intens) 0 1))
        = 203/2 := by
      rw [hax, hbs, hint, hcl]
      norm_num
    have harg2 : a.y - 0 * (a.baseSpeed * (1/5 + (13/10) * clampQ (1/2 + (1/2) * intens) 0 1))
        = a.y := by ring
    have harg3 : a.angle + 0 * (a.agility * (1/2)) = 0 := by
      rw [hang]
      ring
    rw [harg1, harg2, harg3] at e1 e2
    obtain ⟨hrx, hrang⟩ :=
      applyBounds_reflect_high a 100 100 (203/2) a.y 0
        (by norm_num) (by norm_num) (by norm_num) hy0 hy1
    have hval : max (0 : ℚ) (min (2 * max 0 ((100 : ℚ) - 1/1000000) - 203/2)
        (max 0 ((100 : ℚ) - 1/1000000))) = 49249999/500000 := by
      rw [show max (0 : ℚ) ((100 : ℚ) - 1/1000000) = 99999999/1000000 from by
        rw [max_eq_right (by norm_num)]; norm_num]
      rw [min_eq_left (by norm_num), max_eq_right (by norm_num)]
      norm_num
    have hqm : qmod (180 - (0 : ℚ)) 360 = 180 := by
      have hf : ⌊(180 - (0 : ℚ)) / 360⌋ = 0 := by
        rw [Int.floor_eq_zero_iff, Set.mem_Ico]
        constructor <;> norm_num
      unfold qmod
      rw [hf]
      norm_num
    rw [e1, e2, hrx, hrang, hval, hqm]
    refine ⟨rfl, by norm_num, by norm_num, rfl⟩

/-- Witness for C3 at a concrete agent sitting at x = 99.5 with heading 0
and movement speed 2. -/
theorem move_reflects_at_bound_witness :
    ((⟨199/2, 50, 0, 10, 10, 0, 10, 10, 300, 4/3, 30, 0, none⟩ : AgentState).x = 199/2 ∧
      (0 : ℚ) ≤ 50 ∧ (50 : ℚ) < 100) ∧
    ((moveA 100 100 1 0 0 1 ⟨199/2, 50, 0, 10, 10, 0, 10, 10, 300, 4/3, 30, 0, none⟩).x
        = 49249999/500000 ∧
      0 ≤ (moveA 100 100 1 0 0 1 ⟨199/2, 50, 0, 10, 10, 0, 10, 10, 300, 4/3, 30, 0, none⟩).x ∧
      (moveA 100 100 1 0 0 1 ⟨199/2, 50, 0, 10, 10, 0, 10, 10, 300, 4/3, 30, 0, none⟩).x < 100 ∧
      (moveA 100 100 1 0 0 1 ⟨199/2, 50, 0, 10, 10, 0, 10, 10, 300, 4/3, 30, 0, none⟩).angle
        = 180) :=
  ⟨⟨rfl, by decide, by decide⟩,
   move_reflects_at_bound.2.2.2.2 ⟨199/2, 50, 0, 10, 10, 0, 10, 10, 300, 4/3, 30, 0, none⟩ 1
     rfl rfl rfl rfl (by decide) (by decide)⟩

/-- One scan step treats the sight radius as irrelevant to the best
candidate, its distance and the enemies counter. -/
theorem enemyScanStep_r2 (sx sy r2 r2' : ℝ) (s s' : ScanSt) (p : ℝ × ℝ)
    (h1 : s.best = s'.best) (h2 : s.bestD2 = s'.bestD2) (h3 : s.enemies = s'.enemies) :
    (enemyScanStep sx sy r2 s p).best = (enemyScanStep sx sy r2' s' p).best ∧
    (enemyScanStep sx sy r2 s p).bestD2 = (enemyScanStep sx sy r2' s' p).bestD2 ∧
    (enemyScanStep sx sy r2 s p).enemies = (enemyScanStep sx sy r2' s' p).enemies := by
  unfold enemyScanStep
  by_cases hd : dist2 sx sy p.1 p.2 < s.bestD2
  · have hd' : dist2 sx sy p.1 p.2 < s'.bestD2 := h2 ▸ hd
    simp only [if_pos hd, if_pos hd']
    refine ⟨?_, ?_, ?_⟩ <;> first | trivial | rw [h3]
  · have hd' : ¬ dist2 sx sy p.1 p.2 < s'.bestD2 := h2 ▸ hd
    simp only [if_neg hd, if_neg hd']
    exact ⟨h1, h2, h3⟩

/-- The whole scan treats the sight radius as irrelevant to the best
candidate, its distance and the enemies counter. -/
theorem enemyScan_fold_r2 (sx sy r2 r2' : ℝ) :
    ∀ (ps : List (ℝ × ℝ)) (s s' : ScanSt),
      s.best = s'.best → s.bestD2 = s'.bestD2 → s.enemies = s'.enemies →
      (ps.foldl (enemyScanStep sx sy r2) s).best
          = (ps.foldl (enemyScanStep sx sy r2') s').best ∧
      (ps.foldl (enemyScanStep sx sy r2) s).bestD2
          = (ps.foldl (enemyScanStep sx sy r2') s').bestD2 ∧
      (ps.foldl (enemyScanStep sx sy r2) s).enemies
          = (ps.foldl (enemyScanStep sx sy r2') s').enemies := by
  intro ps
  induction ps with
  | nil => intro s s' h1 h2 h3; exact ⟨h1, h2, h3⟩
  | cons p ps ih =>
    intro s s' h1 h2 h3
    obtain ⟨g1, g2, g3⟩ := enemyScanStep_r2 sx sy r2 r2' s s' p h1 h2 h3
    simpa only [List.foldl_cons] using
      ih (enemyScanStep sx sy r2 s p) (enemyScanStep sx sy r2' s' p) g1 g2 g3

/-- The running best squared distance never increases along the scan. -/
theorem enemyScan_fold_le (sx sy r2 : ℝ) :
    ∀ (ps : List (ℝ × ℝ)) (s : ScanSt),
      (ps.foldl (enemyScanStep sx sy r2) s).bestD2 ≤ s.bestD2 := by
  intro ps
  induction ps with
  | nil => intro s; exact le_refl _
  | cons p ps ih =>
    intro s
    have hrest : (List.foldl (enemyScanStep sx sy r2) (enemyScanStep sx sy r2 s p) ps).bestD2
        ≤ (enemyScanStep sx sy r2 s p).bestD2 := ih (enemyScanStep sx sy r2 s p)
    have hone : (enemyScanStep sx sy r2 s p).bestD2 ≤ s.bestD2 := by
      unfold enemyScanStep
      by_cases hd : dist2 sx sy p.1 p.2 < s.bestD2
      · simp only [if_pos hd]; exact le_of_lt hd
      · simp only [if_neg hd]; exact le_refl _
    simpa only [List.foldl_cons] using le_trans hrest hone

/-- Every scanned agent bounds the final best squared distance: the
nearest-agent search considers all candidates, in range or not. -/
theorem enemyScan_considers_all (sx sy r2 : ℝ) :
    ∀ (ps : List (ℝ × ℝ)) (s : ScanSt) (p : ℝ × ℝ), p ∈ ps →
      (ps.foldl (enemyScanStep sx sy r2) s).bestD2 ≤ dist2 sx sy p.1 p.2 := by
  intro ps
  induction ps with
  | nil => intro s p hp; exact absurd hp (List.not_mem_nil p)
  | cons q ps ih =>
    intro s p hp
    rcases List.mem_cons.mp hp with heq | hmem
    · subst heq
      have hrest : (List.foldl (enemyScanStep sx sy r2) (enemyScanStep sx sy r2 s p) ps).bestD2
          ≤ (enemyScanStep sx sy r2 s p).bestD2 :=
        enemyScan_fold_le sx sy r2 ps (enemyScanStep sx sy r2 s p)
      have hone : (enemyScanStep sx sy r2 s p).bestD2 ≤ dist2 sx sy p.1 p.2 := by
        unfold enemyScanStep
        by_cases hd : dist2 sx sy p.1 p.2 < s.bestD2
        · simp only [if_pos hd]; exact le_refl _
        · simp only [if_neg hd]; exact not_lt.mp hd
      simpa only [List.foldl_cons] using le_trans hrest hone
    · simpa only [List.foldl_cons] using ih (enemyScanStep sx sy r2 s q) p hmem

/-- The running best squared distance never increases along the food
scan. -/
theorem foodScan_fold_le (sx sy : ℝ) :
    ∀ (ps : List (ℝ × ℝ)) (s : FoodScanSt),
      (ps.foldl (foodScanStep sx sy) s).bestD2 ≤ s.bestD2 := by
  intro ps
  induction ps with
  | nil => intro s; exact le_refl _
  | cons p ps ih =>
    intro s
    have hrest : (List.foldl (foodScanStep sx sy) (foodScanStep sx sy s p) ps).bestD2
        ≤ (foodScanStep sx sy s p).bestD2 := ih (foodScanStep sx sy s p)
    have hone : (foodScanStep sx sy s p).bestD2 ≤ s.bestD2 := by
      unfold foodScanStep
      by_cases hd : dist2 sx sy p.1 p.2 < s.bestD2
      · simp only [if_pos hd]; exact le_of_lt hd
      · simp only [if_neg hd]; exact le_refl _
    simpa only [List.foldl_cons] using le_trans hrest hone

/-- Every scanned food bounds the final best squared distance: the
nearest-food search considers all candidates, with no range filter. -/
theorem foodScan_considers_all (sx sy : ℝ) :
    ∀ (ps : List (ℝ × ℝ)) (s : FoodScanSt) (p : ℝ × ℝ), p ∈ ps →
      (ps.foldl (foodScanStep sx sy) s).bestD2 ≤ dist2 sx sy p.1 p.2 := by
  intro ps
  induction ps with
  | nil => intro s p hp; exact absurd hp (List.not_mem_nil p)
  | cons q ps ih =>
    intro s p hp
    rcases List.mem_cons.mp hp with heq | hmem
    · subst heq
      have hrest : (List.foldl (foodScanStep sx sy) (foodScanStep sx sy s p) ps).bestD2
          ≤ (foodScanStep sx sy s p).bestD2 :=
        foodScan_fold_le sx sy ps (foodScanStep sx sy s p)
      have hone : (foodScanStep sx sy s p).bestD2 ≤ dist2 sx sy p.1 p.2 := by
        unfold foodScanStep
        by_cases hd : dist2 sx sy p.1 p.2 < s.bestD2
        · simp only [if_pos hd]; exact le_refl _
        · simp only [if_neg hd]; exact not_lt.mp hd
      simpa only [List.foldl_cons] using le_trans hrest hone
    · simpa only [List.foldl_cons] using ih (foodScanStep sx sy s q) p hmem

/-- C6 counterexample: with sight 2 and the only other agent at distance
10 (far outside the sight radius), sense() still selects it as nearest:
the direction features are (1, 0), not the sentinel (0, 0) the claim
requires when no agent is in range. -/
theorem sense_agent_filter_missing :
    (2 : ℝ) * 2 < dist2 0 0 10 0 ∧
    senseEnemyFeatures 0 0 2 [(10, 0)] = (0, 1/10, 1, 1, 0) ∧
    ¬ ((senseEnemyFeatures 0 0 2 [(10, 0)]).2.2.2.1 = 0 ∧
       (senseEnemyFeatures 0 0 2 [(10, 0)]).2.2.2.2 = 0) := by
  have hd : dist2 0 0 10 0 = 100 := by
    unfold dist2
    norm_num
  have hscan : enemyScan 0 0 (2 * 2) [(10, 0)] = ⟨some (10, 0), 100, 0, 1⟩ := by
    unfold enemyScan enemyScanStep
    simp only [List.foldl_cons, List.foldl_nil, hd]
    norm_num
  have hmax2 : max (1/1000000000 : ℝ) 2 = 2 := by
    rw [max_eq_right]
    norm_num
  have hsqrt : Real.sqrt 100 = 10 := by
    rw [show (100 : ℝ) = 10 ^ 2 from by norm_num]
    exact Real.sqrt_sq (by norm_num)
  have hfeat : senseEnemyFeatures 0 0 2 [(10, 0)] = (0, 1/10, 1, 1, 0) := by
    unfold senseEnemyFeatures
    rw [if_neg (by simp)]
    simp only [hscan]
    unfold clampR
    rw [hmax2, hsqrt]
    norm_num
  refine ⟨by rw [hd]; norm_num, hfeat, ?_⟩
  rw [hfeat]
  intro h
  have := h.1
  norm_num at this

/-- C6 amended: the sight radius enters the agent loop of sense() only
through the in-range friend count; the nearest-agent selection, its
distance and the enemies counter are identical for any radius and the
selected minimum ranges over all other agents, in range or not; the
sentinel (distance 1, direction (0,0)) is produced when the list of other
agents is empty; and the nearest-food search likewise scans all food with
no range filter, with the same sentinel on an empty list. -/
theorem sense_range_filter :
    (∀ (sx sy r2 r2' : ℝ) (ps : List (ℝ × ℝ)),
      (enemyScan sx sy r2 ps).best = (enemyScan sx sy r2' ps).best ∧
      (enemyScan sx sy r2 ps).bestD2 = (enemyScan sx sy r2' ps).bestD2 ∧
      (enemyScan sx sy r2 ps).enemies = (enemyScan sx sy r2' ps).enemies) ∧
    (∀ (sx sy r2 : ℝ) (ps : List (ℝ × ℝ)) (p : ℝ × ℝ), p ∈ ps →
      (enemyScan sx sy r2 ps).bestD2 ≤ dist2 sx sy p.1 p.2) ∧
    (∀ sx sy sight : ℝ, senseEnemyFeatures sx sy sight [] = (0, 0, 1, 0, 0)) ∧
    (∀ (sx sy : ℝ) (ps : List (ℝ × ℝ)) (p : ℝ × ℝ), p ∈ ps →
      (foodScan sx sy ps).bestD2 ≤ dist2 sx sy p.1 p.2) ∧
    (∀ sx sy sight : ℝ, senseFoodFeatures sx sy sight [] = (1, 0, 0)) := by
  refine ⟨?_, ?_, ?_, ?_, ?_⟩
  · intro sx sy r2 r2' ps
    exact enemyScan_fold_r2 sx sy r2 r2' ps _ _ rfl rfl rfl
  · intro sx sy r2 ps p hp
    exact enemyScan_considers_all sx sy r2 ps _ p hp
  · intro sx sy sight
    unfold senseEnemyFeatures
    rw [if_pos rfl]
  · intro sx sy ps p hp
    exact foodScan_considers_all sx sy ps _ p hp
  · intro sx sy sight
    unfold senseFoodFeatures
    rw [if_pos rfl]

/-- Witness for C6: the out-of-range agent at distance 10 bounds the
scanned minimum. -/
theorem sense_range_filter_witness :
    ((10, 0) : ℝ × ℝ) ∈ [((10 : ℝ), (0 : ℝ))] ∧
      (enemyScan 0 0 4 [(10, 0)]).bestD2 ≤ dist2 0 0 (10, (0 : ℝ)).1 (10, (0 : ℝ)).2 :=
  ⟨List.mem_singleton.mpr rfl,
   sense_range_filter.2.1 0 0 4 [(10, 0)] (10, 0) (List.mem_singleton.mpr rfl)⟩

/-- Cloning by class dispatch reproduces the parent's producer kind. -/
theorem mkSource_kind (k : SourceKind) (x y : ℤ) (aid : ℕ) :
    (mkSource k x y aid).kind = k := by
  cases k <;> rfl

/-- C7: the tick loop spawns a new source by expansion exactly when the
expansion probability fires and the offset cell is in-bounds, free of any
live source, inside the parent's area, with the area counter strictly
below its maximum; on success the clone keeps the parent's producer kind,
the parent area's counter grows by exactly 1 and every other area is
untouched; otherwise nothing changes. -/
theorem expansion_spawn_conditions (env : Env) (src : FoodSrc) (r : ℚ) (dx dy : ℤ) :
    (¬ (r < (env.areas src.areaId).expansionChance ∧
        (0 ≤ src.x + dx ∧ src.x + dx < env.gridWidth ∧
         0 ≤ src.y + dy ∧ src.y + dy < env.gridHeight ∧
         isFoodSourceAt env.sources (src.x + dx) (src.y + dy) = false ∧
         getAreaAt env.gridWidth env.gridHeight (src.x + dx) (src.y + dy) = src.areaId ∧
         (env.areas src.areaId).currentFoodSources < (env.areas src.areaId).maxFoodSources)) →
      expansionStep r dx dy env src = env) ∧
    ((r < (env.areas src.areaId).expansionChance ∧
        (0 ≤ src.x + dx ∧ src.x + dx < env.gridWidth ∧
         0 ≤ src.y + dy ∧ src.y + dy < env.gridHeight ∧
         isFoodSourceAt env.sources (src.x + dx) (src.y + dy) = false ∧
         getAreaAt env.gridWidth env.gridHeight (src.x + dx) (src.y + dy) = src.areaId ∧
         (env.areas src.areaId).currentFoodSources < (env.areas src.areaId).maxFoodSources)) →
      (expansionStep r dx dy env src).sources
          = env.sources ++ [mkSource src.kind (src.x + dx) (src.y + dy) src.areaId] ∧
      (mkSource src.kind (src.x + dx) (src.y + dy) src.areaId).kind = src.kind ∧
      ((expansionStep r dx dy env src).areas src.areaId).currentFoodSources
          = (env.areas src.areaId).currentFoodSources + 1 ∧
      (∀ j, j ≠ src.areaId → (expansionStep r dx dy env src).areas j = env.areas j)) := by
  constructor
  · intro hnot
    unfold expansionStep
    by_cases hr : r < (env.areas src.areaId).expansionChance
    · rw [if_pos hr, if_neg (fun hrest => hnot ⟨hr, hrest⟩)]
    · rw [if_neg hr]
  · rintro ⟨hr, hrest⟩
    unfold expansionStep
    rw [if_pos hr, if_pos hrest]
    refine ⟨rfl, mkSource_kind src.kind _ _ _, ?_, ?_⟩
    · simp
    · intro j hj
      simp [hj]

/-- Witness for C7: a concrete successful expansion of the initial grass
patch one cell diagonally, on a 20 by 20 grid with the counter at 0. -/
theorem expansion_spawn_conditions_witness :
    (expansionStep (1/1000) 1 1 ⟨20, 20, [mkGrass 2 2 1], fun _ => plainsArea⟩
        (mkGrass 2 2 1)).sources
      = [mkGrass 2 2 1] ++ [mkSource (mkGrass 2 2 1).kind ((mkGrass 2 2 1).x + 1)
          ((mkGrass 2 2 1).y + 1) (mkGrass 2 2 1).areaId] ∧
    ((expansionStep (1/1000) 1 1 ⟨20, 20, [mkGrass 2 2 1], fun _ => plainsArea⟩
        (mkGrass 2 2 1)).areas (mkGrass 2 2 1).areaId).currentFoodSources
      = ((⟨20, 20, [mkGrass 2 2 1], fun _ => plainsArea⟩ : Env).areas
          (mkGrass 2 2 1).areaId).currentFoodSources + 1 := by
  have h := (expansion_spawn_conditions ⟨20, 20, [mkGrass 2 2 1], fun _ => plainsArea⟩
      (mkGrass 2 2 1) (1/1000) 1 1).2
    ⟨by norm_num [plainsArea, mkGrass],
     by decide, by decide, by decide, by decide, by decide, by decide, by decide⟩
  exact ⟨h.1, h.2.2.1⟩

/-- C10: spawning the initial food sources never touches any area record,
so no live-source counter reflects the initially spawned sources; on an
empty 20 by 20 world the spawn adds all 8 table positions while the area
records stay exactly as constructed. -/
theorem spawn_initial_counters (env : Env) :
    (spawnInitial env).areas = env.areas ∧
    (∀ aid, ((spawnInitial env).areas aid).currentFoodSources
        = (env.areas aid).currentFoodSources) ∧
    (spawnInitial ⟨20, 20, [], fun _ => plainsArea⟩).sources.length = 8 := by
  refine ⟨rfl, fun aid => rfl, ?_⟩
  decide
